import Mathlib

/-!
Verification of the csbluegem.py client library.

Shallow embedding of the library (src/csbluegem/{errors,utils,types,http,client}.py)
into Lean 4.  Python floats are modelled as rationals; every numeric literal in the
source is an exactly representable decimal, so every comparison the claims exercise
agrees with the rational order.  Python datetimes are modelled by their epoch-seconds
integer (the only use the wire format makes of them).  Raised exceptions are modelled
by Except values: an .error result is an exception propagating to the caller, an .ok
result is a normal return.  JSON objects reaching the decoders are modelled by
structures of Option-typed fields, where none marks an absent key and, for fields
whose value may be JSON null, a nested Option marks null.
-/

namespace CSBlueGem

/-! ## errors.py

The library exception taxonomy, exactly the classes declared in errors.py:
BlueGemError with subclasses BadArgument and HTTPException, the latter with
subclasses NotFound, ServerError, InvalidRequest.  There is no other class
(in particular errors.py declares no DecodeError).  HTTPException and its
subclasses carry a status code and a message. -/


inductive JVal where
  | null
  | bool (b : Bool)
  | num (q : ℚ)
  | str (s : String)
  deriving DecidableEq, Repr

/-- The exceptions declared in errors.py.  InvalidRequest carries the raw JSON
value found under the message key, mirroring InvalidRequest(status, message). -/
inductive CSBGError where
  | badArgument (msg : String)
  | httpException (status : ℕ) (msg : String)
  | notFound (status : ℕ) (msg : String)
  | serverError (status : ℕ) (msg : String)
  | invalidRequest (status : ℕ) (message : JVal)
  deriving DecidableEq, Repr

/-- Python builtin exceptions that the decoding layer can raise, plus an
embedding of the library taxonomy.  KeyError is raised by a mapping lookup of
an absent key and names that key; ValueError by an enum constructor given an
unknown wire string; RuntimeError by the screenshot inspect accessor;
TypeError by keyword-expansion of an incomplete mapping. -/
inductive PyError where
  | keyError (key : String)
  | valueError (msg : String)
  | runtimeError (msg : String)
  | typeError (msg : String)
  | library (e : CSBGError)
  deriving DecidableEq, Repr

/-- Whether an exception belongs to the library taxonomy of errors.py
(a BlueGemError subclass) as opposed to a Python builtin. -/
def PyError.isLibraryError : PyError → Bool
  | .library _ => true
  | _ => false

/-! ## utils.py : validation helpers -/

/-- The literal 0.0000000000001 from utils.is_valid_wear. -/
def wearEpsilon : ℚ := 1 / 10000000000000

/-- utils.is_valid_wear: 0.0000000000001 <= flt <= 1. -/
def is_valid_wear (flt : ℚ) : Bool :=
  wearEpsilon ≤ flt ∧ flt ≤ 1

/-- utils.is_valid_pattern: 0 <= pattern <= 1000 if pattern is not None else True. -/
def is_valid_pattern (pattern : Option ℤ) : Bool :=
  match pattern with
  | some p => 0 ≤ p ∧ p ≤ 1000
  | none => true

/-! ## types.py : enumerations

Each Python Enum member is a Lean constructor; .value gives the member value
(the canonical wire string).  FilterType, like every plain Enum without a
custom str dunder, displays as ClassName.MemberName when interpolated into an
f-string; FilterType.pyStr captures that display form.  Origin overrides the
str dunder to return the value. -/


inductive Item where
  | AK47 | Bayonet | BowieKnife | ButterflyKnife | ClassicKnife | FalchionKnife
  | FiveSeveN | FlipKnife | GutKnife | HuntsmanKnife | HydraGloves | Karambit
  | KukriKnife | M9Bayonet | MAC10 | NavajaKnife | NomadKnife | ParacordKnife
  | ShadowDaggers | SkeletonKnife | StilettoKnife | SurvivalKnife | TalonKnife
  | UrsusKnife
  deriving DecidableEq, Repr

def Item.value : Item → String
  | .AK47 => "AK-47"
  | .Bayonet => "Bayonet"
  | .BowieKnife => "Bowie Knife"
  | .ButterflyKnife => "Butterfly Knife"
  | .ClassicKnife => "Classic Knife"
  | .FalchionKnife => "Falchion Knife"
  | .FiveSeveN => "Five-SeveN"
  | .FlipKnife => "Flip Knife"
  | .GutKnife => "Gut Knife"
  | .HuntsmanKnife => "Huntsman Knife"
  | .HydraGloves => "Hydra Gloves"
  | .Karambit => "Karambit"
  | .KukriKnife => "Kukri Knife"
  | .M9Bayonet => "M9 Bayonet"
  | .MAC10 => "MAC-10"
  | .NavajaKnife => "Navaja Knife"
  | .NomadKnife => "Nomad Knife"
  | .ParacordKnife => "Paracord Knife"
  | .ShadowDaggers => "Shadow Daggers"
  | .SkeletonKnife => "Skeleton Knife"
  | .StilettoKnife => "Stiletto Knife"
  | .SurvivalKnife => "Survival Knife"
  | .TalonKnife => "Talon Knife"
  | .UrsusKnife => "Ursus Knife"

inductive Currency where
  | USD | EUR | JPY | GBP | CNY | AUD | CAD
  deriving DecidableEq, Repr

def Currency.value : Currency → String
  | .USD => "USD"
  | .EUR => "EUR"
  | .JPY => "JPY"
  | .GBP => "GBP"
  | .CNY => "CNY"
  | .AUD => "AUD"
  | .CAD => "CAD"

inductive Order where
  | Asc | Desc
  deriving DecidableEq, Repr

def Order.value : Order → String
  | .Asc => "ASC"
  | .Desc => "DESC"

inductive ItemType where
  | StatTrak | Normal
  deriving DecidableEq, Repr

def ItemType.value : ItemType → String
  | .StatTrak => "stattrak"
  | .Normal => "normal"

/-- The ItemType(value) enum constructor: ValueError on an unknown string. -/
def ItemType.fromWire (s : String) : Except PyError ItemType :=
  if s = "stattrak" then .ok .StatTrak
  else if s = "normal" then .ok .Normal
  else .error (.valueError ("not a valid ItemType: " ++ s))

inductive Origin where
  | Buff | CSFloat | SkinBid | BroSkins | Skinport | C5Game
  deriving DecidableEq, Repr

def Origin.value : Origin → String
  | .Buff => "Buff"
  | .CSFloat => "CSFloat"
  | .SkinBid => "SkinBid"
  | .BroSkins => "BroSkins"
  | .Skinport => "Skinport"
  | .C5Game => "c5game"

/-- The Origin(value) enum constructor: ValueError on an unknown string. -/
def Origin.fromWire (s : String) : Except PyError Origin :=
  if s = "Buff" then .ok .Buff
  else if s = "CSFloat" then .ok .CSFloat
  else if s = "SkinBid" then .ok .SkinBid
  else if s = "BroSkins" then .ok .BroSkins
  else if s = "Skinport" then .ok .Skinport
  else if s = "c5game" then .ok .C5Game
  else .error (.valueError ("not a valid Origin: " ++ s))

inductive SortKey where
  | PlaysideBlue | PlaysidePurple | PlaysideGold | BacksideBlue | BacksidePurple
  | BacksideGold | PlaysideContourBlue | PlaysideContourPurple | BacksideContourBlue
  | BacksideContourPurple | Pattern | Wear | Date | Price
  deriving DecidableEq, Repr

def SortKey.value : SortKey → String
  | .PlaysideBlue => "playside_blue"
  | .PlaysidePurple => "playside_purple"
  | .PlaysideGold => "playside_gold"
  | .BacksideBlue => "backside_blue"
  | .BacksidePurple => "backside_purple"
  | .BacksideGold => "backside_gold"
  | .PlaysideContourBlue => "playside_contour_blue"
  | .PlaysideContourPurple => "playside_contour_purple"
  | .BacksideContourBlue => "backside_contour_blue"
  | .BacksideContourPurple => "backside_contour_purple"
  | .Pattern => "pattern"
  | .Wear => "wear"
  | .Date => "date"
  | .Price => "price"

inductive FilterType where
  | PlaysideBlue | PlaysidePurple | PlaysideGold
  | BacksideBlue | BacksidePurple | BacksideGold
  deriving DecidableEq, Repr

/-- The member value: the canonical wire string. -/
def FilterType.value : FilterType → String
  | .PlaysideBlue => "playside_blue"
  | .PlaysidePurple => "playside_purple"
  | .PlaysideGold => "playside_gold"
  | .BacksideBlue => "backside_blue"
  | .BacksidePurple => "backside_purple"
  | .BacksideGold => "backside_gold"

/-- What str(member) produces for FilterType: the class declares no custom
str dunder, so a plain Enum member interpolates as ClassName.MemberName. -/
def FilterType.pyStr : FilterType → String
  | .PlaysideBlue => "FilterType.PlaysideBlue"
  | .PlaysidePurple => "FilterType.PlaysidePurple"
  | .PlaysideGold => "FilterType.PlaysideGold"
  | .BacksideBlue => "FilterType.BacksideBlue"
  | .BacksidePurple => "FilterType.BacksidePurple"
  | .BacksideGold => "FilterType.BacksideGold"

/-! ## types.py : Filter -/


structure Filter where
  type : FilterType
  min : ℚ
  max : ℚ
  deriving DecidableEq, Repr

/-- Filter.is_valid (types.py): (0 <= self.min < 100 and 0 < self.max <= 100)
and self.max > self.min. -/
def Filter.is_valid (f : Filter) : Bool :=
  ((0 ≤ f.min ∧ f.min < 100) ∧ (0 < f.max ∧ f.max ≤ 100)) ∧ f.max > f.min

/-! ## http.py : transport

The response body, after HTTPClient json_text_or_bytes has dispatched on the
declared content type, is a parsed JSON object (a Python dict), a decoded
text string, or raw bytes.  Dict values are modelled by JVal; a JSON null
value parses to Python None, which dict.get cannot distinguish from an
absent key. -/


inductive Payload where
  | dict (fields : List (String × JVal))
  | text (s : String)
  | bytes (b : List ℕ)
  deriving DecidableEq, Repr

/-- Association-list lookup, first binding wins (parsed JSON objects keep the
last duplicate key, so decoded dicts have distinct keys and first = only). -/
def lookupField : List (String × JVal) → String → Option JVal
  | [], _ => none
  | (k0, v0) :: rest, k => if k0 = k then some v0 else lookupField rest k

/-- data.get of the message key on the parsed payload, as the walrus test in
HTTPClient.request observes it: non-dicts have no message; a JSON null value
parsed to Python None is indistinguishable from an absent key, so both give
none here and the walrus branch is not taken. -/
def Payload.getMessage : Payload → Option JVal
  | .dict fields =>
    match lookupField fields "message" with
    | some .null => none
    | some v => some v
    | none => none
  | _ => none

/-- The interpolation of the local message variable into the f-string of the
generic HTTPException branch: after the dict branch did not raise, message is
Python None when the payload was a dict (str-interpolating as None) and the
empty string otherwise. -/
def Payload.residualMessageText : Payload → String
  | .dict _ => "None"
  | _ => ""

/-- The status-to-outcome mapping of HTTPClient.request, applied to the
response status and the already-dispatched body.  An .error is an exception
raised out of request; .ok returns the decoded payload. -/
def request (status : ℕ) (data : Payload) : Except CSBGError Payload :=
  match data.getMessage with
  | some message => .error (.invalidRequest status message)
  | none =>
    if 500 ≤ status then .error (.serverError status "")
    else if status = 404 then .error (.notFound status "")
    else if 200 ≤ status ∧ status < 300 then .ok data
    else .error (.httpException status
      ("an unexpected error occurred: " ++ data.residualMessageText))

/-! ## client.py : parameter builders

The params mapping is a Python dict of str keys to str/int/float values,
modelled as an insertion-ordered association list with dict-assignment
update semantics. -/


inductive PValue where
  | str (s : String)
  | int (z : ℤ)
  | num (q : ℚ)
  deriving DecidableEq, Repr

/-- Dict assignment params[k] = v: overwrite in place if the key is present,
append otherwise. -/
def setParam : List (String × PValue) → String → PValue → List (String × PValue)
  | [], k, v => [(k, v)]
  | (k0, v0) :: rest, k, v =>
    if k0 = k then (k0, v) :: rest else (k0, v0) :: setParam rest k v

/-- Dict read params.get(k). -/
def lookupParam : List (String × PValue) → String → Option PValue
  | [], _ => none
  | (k0, v0) :: rest, k => if k0 = k then some v0 else lookupParam rest k

/-- The filter-expansion loop shared by Client.search and Client.pattern_data:
each filter is validated (BadArgument aborts the whole request on the first
invalid one), then written as two wire entries.  The min key interpolates
filter.type.value; the max key interpolates filter.type itself, which for a
plain Enum is its ClassName.MemberName display form. -/
def applyFilters (params : List (String × PValue)) :
    List Filter → Except CSBGError (List (String × PValue))
  | [] => .ok params
  | f :: rest =>
    if ¬ f.is_valid then .error (.badArgument "a provided filter is invalid")
    else
      applyFilters
        (setParam (setParam params (f.type.value ++ "_min") (.num f.min))
          (f.type.pyStr ++ "_max") (.num f.max))
        rest

/-- An optional argument written under key k when supplied (the if arg is not
None branches of the builders). -/
def addIfSome (k : String) (f : α → PValue) (o : Option α)
    (ps : List (String × PValue)) : List (String × PValue) :=
  match o with
  | none => ps
  | some x => setParam ps k (f x)

/-- An optional argument with a validity predicate: validated when supplied,
raising BadArgument before it is written. -/
def addValidated (k : String) (f : α → PValue) (valid : α → Bool) (msg : String)
    (o : Option α) (ps : List (String × PValue)) :
    Except CSBGError (List (String × PValue)) :=
  match o with
  | none => .ok ps
  | some x =>
    if ¬ valid x then .error (.badArgument msg)
    else .ok (setParam ps k (f x))

/-- A boolean toggle: written as the literal string true only when enabled. -/
def addFlag (k : String) (b : Bool) (ps : List (String × PValue)) :
    List (String × PValue) :=
  if b then setParam ps k (.str "true") else ps

/-- The arguments of Client.search.  Optional[...] arguments default to none;
currency, sort and order carry the signature defaults USD, Date, Desc; the
datetime bounds are carried as their epoch-seconds integers (the only use the
builder makes of them, via int(arg.timestamp())); filters as a list, the None
default behaving as the empty list. -/
structure SearchArgs where
  skin : Item
  currency : Currency := .USD
  type : Option ItemType := none
  pattern : Option ℤ := none
  price_min : Option ℚ := none
  price_max : Option ℚ := none
  wear_min : Option ℚ := none
  wear_max : Option ℚ := none
  sort : SortKey := .Date
  order : Order := .Desc
  origin : Option Origin := none
  date_min : Option ℤ := none
  date_max : Option ℤ := none
  limit : Option ℤ := none
  offset : Option ℤ := none
  pattern_data : Bool := false
  filters : List Filter := []

/-- The base dict literal of Client.search: the four entries always sent,
holding the canonical wire value of each enum argument. -/
def searchBase (a : SearchArgs) : List (String × PValue) :=
  [("skin", .str a.skin.value), ("currency", .str a.currency.value),
   ("sort", .str a.sort.value), ("order", .str a.order.value)]

/-- The parameter-building prefix of Client.search, in source order: base
dict of the four always-sent entries, then each optional argument, then the
filter loop.  An .error is a BadArgument raised before the HTTP request; an
.ok is the params mapping handed to the transport. -/
def searchParams (a : SearchArgs) : Except CSBGError (List (String × PValue)) :=
  match addValidated "pattern" (fun p => .int p)
      (fun p => is_valid_pattern (some p)) "pattern is invalid." a.pattern
      (addIfSome "type" (fun t => .str t.value) a.type (searchBase a)) with
  | .error e => .error e
  | .ok ps1 =>
    match addValidated "wear_min" (fun q => .num q) is_valid_wear
        "float_min is not in range." a.wear_min
        (addIfSome "price_max" (fun q => .num q) a.price_max
          (addIfSome "price_min" (fun q => .num q) a.price_min ps1)) with
    | .error e => .error e
    | .ok ps2 =>
      match addValidated "wear_max" (fun q => .num q) is_valid_wear
          "float_max is not in range." a.wear_max ps2 with
      | .error e => .error e
      | .ok ps3 =>
        applyFilters
          (addFlag "pattern_data" a.pattern_data
            (addIfSome "offset" (fun z => .int z) a.offset
              (addIfSome "limit" (fun z => .int z) a.limit
                (addIfSome "date_max" (fun z => .int z) a.date_max
                  (addIfSome "date_min" (fun z => .int z) a.date_min
                    (addIfSome "origin" (fun o => .str o.value) a.origin ps3))))))
          a.filters

/-- The arguments of Client.pattern_data, with its signature defaults. -/
structure PatternDataArgs where
  item : Item
  pattern : Option ℤ := none
  sort : SortKey := .Pattern
  order : Order := .Desc
  quantity : Bool := false
  offset : Option ℤ := none
  limit : Option ℤ := none
  filters : List Filter := []

/-- The parameter-building prefix of Client.pattern_data, in source order.
Its pattern argument is written without validation. -/
def patternDataParams (a : PatternDataArgs) :
    Except CSBGError (List (String × PValue)) :=
  applyFilters
    (addIfSome "limit" (fun z => .int z) a.limit
      (addIfSome "offset" (fun z => .int z) a.offset
        (addFlag "quantity" a.quantity
          (addIfSome "pattern" (fun p => .int p) a.pattern
            [("skin", .str a.item.value), ("sort", .str a.sort.value),
             ("order", .str a.order.value)]))))
    a.filters

/-- Client.pricecheck: validate pattern then wear, raising BadArgument before
any request; on success the params mapping sent to the /pricecheck route. -/
def pricecheck (item : Item) (pattern : ℤ) (wear : ℚ) :
    Except CSBGError (List (String × PValue)) :=
  if ¬ is_valid_pattern (some pattern) then
    .error (.badArgument "price check pattern must be 0 <= N <= 1000")
  else if ¬ is_valid_wear wear then
    .error (.badArgument "provided float is invalid.")
  else
    .ok [("skin", .str item.value), ("pattern", .int pattern), ("wear", .num wear)]

/-! ## types.py : response decoders

JSON objects are modelled by structures of Option fields (none = key absent).
A required lookup data[k] raises KeyError k when the key is absent; an
optional lookup data.get(k) yields none.  Fields whose JSON value may be null
carry a nested Option (some none = key present with null). -/


/-- Exception propagation: evaluate the first expression; a raised exception
aborts the enclosing call, a normal value feeds the continuation. -/
def andThenE (x : Except ε α) (f : α → Except ε β) : Except ε β :=
  match x with
  | .error e => .error e
  | .ok v => f v

/-- Required mapping lookup data[k]. -/
def req (o : Option α) (k : String) : Except PyError α :=
  match o with
  | some v => .ok v
  | none => .error (.keyError k)

/-- The X.from_data(d) if d is not None else None pattern for optional
nested substructures. -/
def decodeOptional (o : Option α) (dec : α → Except ε β) : Except ε (Option β) :=
  match o with
  | none => .ok none
  | some x => andThenE (dec x) fun b => .ok (some b)

structure ScreenshotsJson where
  inspect : Option (Option String) := none
  inspect_playside : Option (Option String) := none
  inspect_backside : Option (Option String) := none

/-- The decoded Screenshots dataclass; the first field is the private
underscore-prefixed inspect slot backing the inspect accessor. -/
structure Screenshots where
  rawInspect : Option String
  inspect_playside : Option String
  inspect_backside : Option String
  deriving DecidableEq, Repr

/-- Screenshots.from_data: three required lookups, in source order. -/
def Screenshots.fromData (d : ScreenshotsJson) : Except PyError Screenshots :=
  andThenE (req d.inspect "inspect") fun inspect =>
  andThenE (req d.inspect_playside "inspect_playside") fun inspect_playside =>
  andThenE (req d.inspect_backside "inspect_backside") fun inspect_backside =>
  .ok ⟨inspect, inspect_playside, inspect_backside⟩

/-- Python truthiness filter on an Optional[str]: None and the empty string
are falsy; a non-empty string is kept. -/
def truthyStr : Option String → Option String
  | none => none
  | some s => if s = "" then none else some s

/-- The Screenshots.inspect property: return the private inspect slot when
truthy, else the playside inspect link when truthy, else raise RuntimeError. -/
def Screenshots.inspect (s : Screenshots) : Except PyError String :=
  match truthyStr s.rawInspect with
  | some u => .ok u
  | none =>
    match truthyStr s.inspect_playside with
    | some u => .ok u
    | none => .error (.runtimeError "invalid data was received from the API")

structure PDScreenshotsJson where
  csbluegem_screenshot : Option String := none
  aq_oiled : Option String := none

structure PatternDataScreenshots where
  csbluegem_screenshot : String
  aq_oiled : String
  deriving DecidableEq, Repr

/-- PatternDataScreenshots.from_data is cls(**data): keyword expansion
raises TypeError when a required field is absent. -/
def PatternDataScreenshots.fromData (d : PDScreenshotsJson) :
    Except PyError PatternDataScreenshots :=
  match d.csbluegem_screenshot, d.aq_oiled with
  | some c, some a => .ok ⟨c, a⟩
  | _, _ => .error (.typeError "missing a required keyword-only argument")

structure PDExtraJson where
  similar_playside : Option String := none
  similar_backside : Option String := none
  csfloat_link : Option String := none
  search : Option String := none

structure PatternDataExtra where
  similar_playside : String
  similar_backside : String
  csfloat_link : String
  search : String
  deriving DecidableEq, Repr

/-- PatternDataExtra.from_data is cls(**data). -/
def PatternDataExtra.fromData (d : PDExtraJson) : Except PyError PatternDataExtra :=
  match d.similar_playside, d.similar_backside, d.csfloat_link, d.search with
  | some a, some b, some c, some s => .ok ⟨a, b, c, s⟩
  | _, _, _, _ => .error (.typeError "missing a required keyword-only argument")

structure PatternDataJson where
  backside_blue : Option ℚ := none
  backside_contour_blue : Option ℤ := none
  backside_contour_purple : Option ℤ := none
  backside_gold : Option ℚ := none
  backside_purple : Option ℚ := none
  playside_blue : Option ℚ := none
  playside_contour_blue : Option ℤ := none
  playside_contour_purple : Option ℚ := none
  playside_gold : Option ℚ := none
  playside_purple : Option ℚ := none
  pattern : Option ℤ := none
  quantity : Option ℤ := none
  screenshots : Option PDScreenshotsJson := none
  extra : Option PDExtraJson := none

structure PatternData where
  backside_blue : ℚ
  backside_contour_blue : ℤ
  backside_contour_purple : ℤ
  backside_gold : ℚ
  backside_purple : ℚ
  playside_blue : ℚ
  playside_contour_blue : ℤ
  playside_contour_purple : ℚ
  playside_gold : ℚ
  playside_purple : ℚ
  pattern : Option ℤ
  quantity : Option ℤ
  screenshots : Option PatternDataScreenshots
  extra : Option PatternDataExtra
  deriving DecidableEq, Repr

/-- PatternData.from_data: ten required lookups in source order, then the
optional pattern, quantity, screenshots and extra substructures via .get,
absent ones decoding to none. -/
def PatternData.fromData (d : PatternDataJson) : Except PyError PatternData :=
  andThenE (req d.backside_blue "backside_blue") fun backside_blue =>
  andThenE (req d.backside_contour_blue "backside_contour_blue") fun backside_contour_blue =>
  andThenE (req d.backside_contour_purple "backside_contour_purple") fun backside_contour_purple =>
  andThenE (req d.backside_gold "backside_gold") fun backside_gold =>
  andThenE (req d.backside_purple "backside_purple") fun backside_purple =>
  andThenE (req d.playside_blue "playside_blue") fun playside_blue =>
  andThenE (req d.playside_contour_blue "playside_contour_blue") fun playside_contour_blue =>
  andThenE (req d.playside_contour_purple "playside_contour_purple") fun playside_contour_purple =>
  andThenE (req d.playside_gold "playside_gold") fun playside_gold =>
  andThenE (req d.playside_purple "playside_purple") fun playside_purple =>
  andThenE (decodeOptional d.screenshots PatternDataScreenshots.fromData) fun screenshots =>
  andThenE (decodeOptional d.extra PatternDataExtra.fromData) fun extra =>
  .ok ⟨backside_blue, backside_contour_blue, backside_contour_purple,
    backside_gold, backside_purple, playside_blue, playside_contour_blue,
    playside_contour_purple, playside_gold, playside_purple,
    d.pattern, d.quantity, screenshots, extra⟩

structure SearchMetaJson where
  size : Option ℤ := none
  total : Option ℤ := none

structure SearchMeta where
  size : ℤ
  total : ℤ
  deriving DecidableEq, Repr

/-- SearchMeta.from_data: two required lookups, copied verbatim with no
validation. -/
def SearchMeta.fromData (d : SearchMetaJson) : Except PyError SearchMeta :=
  andThenE (req d.size "size") fun size =>
  andThenE (req d.total "total") fun total =>
  .ok ⟨size, total⟩

structure SaleJson where
  buff_id : Option ℤ := none
  csfloat : Option String := none
  wear : Option ℚ := none
  type : Option String := none
  pattern : Option ℤ := none
  price : Option ℚ := none
  epoch : Option ℤ := none
  steam_inspect_link : Option String := none
  origin : Option String := none
  screenshots : Option ScreenshotsJson := none
  pattern_data : Option PatternDataJson := none

/-- The decoded Sale record; the timestamp is the epoch-seconds instant
produced by parse_epoch. -/
structure Sale where
  buff_id : ℤ
  csfloat : String
  wear : ℚ
  type : ItemType
  pattern : ℤ
  price : ℚ
  timestamp : ℤ
  steam_inspect_link : String
  origin : Origin
  pattern_data : Option PatternData
  screenshots : Screenshots
  deriving DecidableEq, Repr

/-- Sale.from_data, in source evaluation order: required lookups for buff_id,
csfloat, wear, the type string (fed to the ItemType constructor), pattern,
price, epoch (fed to parse_epoch), steam_inspect_link and the origin string
(fed to the Origin constructor); then the optional pattern_data via .get and
the required screenshots substructure. -/
def Sale.fromData (d : SaleJson) : Except PyError Sale :=
  andThenE (req d.buff_id "buff_id") fun buff_id =>
  andThenE (req d.csfloat "csfloat") fun csfloat =>
  andThenE (req d.wear "wear") fun wear =>
  andThenE (req d.type "type") fun typeStr =>
  andThenE (ItemType.fromWire typeStr) fun type =>
  andThenE (req d.pattern "pattern") fun pattern =>
  andThenE (req d.price "price") fun price =>
  andThenE (req d.epoch "epoch") fun epoch =>
  andThenE (req d.steam_inspect_link "steam_inspect_link") fun steam_inspect_link =>
  andThenE (req d.origin "origin") fun originStr =>
  andThenE (Origin.fromWire originStr) fun origin =>
  andThenE (decodeOptional d.pattern_data PatternData.fromData) fun pattern_data =>
  andThenE (req d.screenshots "screenshots") fun rawScreens =>
  andThenE (Screenshots.fromData rawScreens) fun screenshots =>
  .ok ⟨buff_id, csfloat, wear, type, pattern, price, epoch,
    steam_inspect_link, origin, pattern_data, screenshots⟩

/-! ## utils.py : as_chunks

The generator walks the iterable once, slicing n elements per round until a
round comes back empty.  The while loop is embedded with the input length as
fuel: each round consumes at least one element, so the fuel never runs out on
the calls as_chunks makes. -/


/-- One round per fuel unit: the batch is the next n elements (for the cons
case with n at least 1, the head plus n-1 more). -/
def chunksGo (n : ℕ) : ℕ → List α → List (List α)
  | _, [] => []
  | 0, _ :: _ => []
  | fuel + 1, x :: xs => (x :: xs.take (n - 1)) :: chunksGo n fuel (xs.drop (n - 1))

/-- utils.as_chunks: ValueError when n < 1, otherwise the lazily produced
sequence of batches, realized eagerly. -/
def as_chunks (xs : List α) (n : ℤ) : Except PyError (List (List α)) :=
  if n < 1 then .error (.valueError "n must be at least one")
  else .ok (chunksGo n.toNat xs.length xs)

/-! ## Theorems -/


/-- C7: for every wear value w, the wear-validity predicate holds if and only
if epsilon <= w <= 1 for the small positive epsilon 10^-13; in particular 1.0
is valid, 0.0 is invalid and 1.0000001 is invalid. -/
theorem wear_validity_characterization :
    (∀ w : ℚ, is_valid_wear w = true ↔ (wearEpsilon ≤ w ∧ w ≤ 1))
    ∧ 0 < wearEpsilon
    ∧ is_valid_wear 1 = true
    ∧ is_valid_wear 0 = false
    ∧ is_valid_wear (10000001 / 10000000) = false := by
  refine ⟨fun w => ?_, by norm_num [wearEpsilon], ?_, ?_, ?_⟩
  · simp [is_valid_wear]
  · norm_num [is_valid_wear, wearEpsilon]
  · norm_num [is_valid_wear, wearEpsilon]
  · norm_num [is_valid_wear, wearEpsilon]

/-- C8: for every filter f, the filter-validity predicate holds if and only
if 0 <= f.min < 100, 0 < f.max <= 100 and f.max > f.min; in particular
(min 0, max 100) is valid, (min 50, max 50) is invalid and (min -1, max 50)
is invalid. -/
theorem filter_validity_characterization :
    (∀ (t : FilterType) (mn mx : ℚ),
      (Filter.mk t mn mx).is_valid = true ↔
        (0 ≤ mn ∧ mn < 100 ∧ 0 < mx ∧ mx ≤ 100 ∧ mx > mn))
    ∧ (Filter.mk .PlaysideBlue 0 100).is_valid = true
    ∧ (Filter.mk .PlaysideBlue 50 50).is_valid = false
    ∧ (Filter.mk .PlaysideBlue (-1) 50).is_valid = false := by
  refine ⟨fun t mn mx => ?_, ?_, ?_, ?_⟩
  · simp [Filter.is_valid]
    tauto
  · norm_num [Filter.is_valid]
  · norm_num [Filter.is_valid]
  · norm_num [Filter.is_valid]

/-- C1: evaluation of the filter-expansion loop at a valid filter.  The min
bound is written under the canonical wire key playside_blue_min, but the max
bound is written under FilterType.PlaysideBlue_max, the str() display form of
the enum member, because the source interpolates filter.type instead of
filter.type.value into the max key.  The claim (and the spec) require the
canonical wire key playside_blue_max there, so the code diverges from them
on every request that carries a filter. -/
theorem filter_max_key_uses_display_name :
    applyFilters [] [Filter.mk .PlaysideBlue 0 100]
      = .ok [("playside_blue_min", .num 0), ("FilterType.PlaysideBlue_max", .num 100)]
    ∧ patternDataParams { item := .Karambit, filters := [Filter.mk .PlaysideBlue 0 100] }
      = .ok [("skin", .str "Karambit"), ("sort", .str "pattern"), ("order", .str "DESC"),
             ("playside_blue_min", .num 0), ("FilterType.PlaysideBlue_max", .num 100)]
    ∧ FilterType.PlaysideBlue.value = "playside_blue"
    ∧ ("FilterType.PlaysideBlue_max" : String) ≠ "playside_blue_max" := by
  refine ⟨rfl, rfl, rfl, by decide⟩

/-- C4 counterexample: the wear 10^-14 lies inside the interval (0, 1], so
per the claim the price check must not raise BadArgument for it, yet the code
rejects it (the wear predicate lower bound is the epsilon 10^-13, not 0). -/
theorem pricecheck_epsilon_counterexample :
    (0 : ℚ) < 1 / 100000000000000
    ∧ (1 : ℚ) / 100000000000000 ≤ 1
    ∧ pricecheck .ClassicKnife 0 (1 / 100000000000000)
        = .error (.badArgument "provided float is invalid.") := by
  refine ⟨by norm_num, by norm_num, ?_⟩
  norm_num [pricecheck, is_valid_pattern, is_valid_wear, wearEpsilon]

/-- C4 amended: the price-check operation raises BadArgument before issuing
any HTTP request (an .ok result is the params mapping of the request that
would be sent; an .error is raised before it) if and only if its pattern lies
outside [0, 1000] or its wear lies outside [10^-13, 1]; the claimed input
(ClassicKnife, pattern 1001, wear 0.5) raises BadArgument, while boundary
patterns 0 and 1000 pass validation. -/
theorem pricecheck_validation :
    (∀ (item : Item) (p : ℤ) (w : ℚ),
      (∃ msg, pricecheck item p w = .error (.badArgument msg)) ↔
        (¬ (0 ≤ p ∧ p ≤ 1000) ∨ ¬ (wearEpsilon ≤ w ∧ w ≤ 1)))
    ∧ pricecheck .ClassicKnife 1001 (1 / 2)
        = .error (.badArgument "price check pattern must be 0 <= N <= 1000")
    ∧ pricecheck .ClassicKnife 0 (1 / 2)
        = .ok [("skin", .str "Classic Knife"), ("pattern", .int 0), ("wear", .num (1 / 2))]
    ∧ pricecheck .ClassicKnife 1000 (1 / 2)
        = .ok [("skin", .str "Classic Knife"), ("pattern", .int 1000), ("wear", .num (1 / 2))] := by
  refine ⟨fun item p w => ?_, ?_, ?_, ?_⟩
  · by_cases hp : (0 ≤ p ∧ p ≤ 1000)
    · by_cases hw : (wearEpsilon ≤ w ∧ w ≤ 1)
      · simp [pricecheck, is_valid_pattern, is_valid_wear, hp, hw]
      · simp [pricecheck, is_valid_pattern, is_valid_wear, hp, hw]
    · simp [pricecheck, is_valid_pattern, hp]
  · norm_num [pricecheck, is_valid_pattern]
  · norm_num [pricecheck, is_valid_pattern, is_valid_wear, wearEpsilon, Item.value]
  · norm_num [pricecheck, is_valid_pattern, is_valid_wear, wearEpsilon, Item.value]

/-- C2 counterexample: a response with status 200 whose parsed payload is a
mapping containing a message field with the JSON null value is returned as a
successful result, not raised as InvalidRequest: the JSON null parses to the
same value dict.get reports for an absent key, so the walrus test skips it.
The claim as stated requires InvalidRequest for every mapping containing a
message field. -/
theorem transport_null_message_counterexample :
    lookupField [("message", JVal.null)] "message" = some JVal.null
    ∧ request 200 (.dict [("message", JVal.null)])
        = .ok (.dict [("message", JVal.null)]) := by
  exact ⟨rfl, rfl⟩

/-- C2 amended: the transport outcome follows the claimed precedence order,
with the message test restricted to mappings whose message field holds a
non-null value: such a payload raises InvalidRequest carrying the status and
that value regardless of status; otherwise status >= 500 raises ServerError
carrying the status; otherwise 404 raises NotFound; otherwise a 2xx status
returns the payload; any other status raises a generic HTTPException
carrying the status and a message. -/
theorem transport_status_precedence :
    (∀ (st : ℕ) (fields : List (String × JVal)) (v : JVal),
      lookupField fields "message" = some v → v ≠ .null →
      request st (.dict fields) = .error (.invalidRequest st v))
    ∧ (∀ (st : ℕ) (d : Payload), d.getMessage = none → 500 ≤ st →
        request st d = .error (.serverError st ""))
    ∧ (∀ d : Payload, d.getMessage = none →
        request 404 d = .error (.notFound 404 ""))
    ∧ (∀ (st : ℕ) (d : Payload), d.getMessage = none → 200 ≤ st → st < 300 →
        request st d = .ok d)
    ∧ (∀ (st : ℕ) (d : Payload), d.getMessage = none → st < 500 → st ≠ 404 →
        ¬ (200 ≤ st ∧ st < 300) →
        request st d = .error (.httpException st
          ("an unexpected error occurred: " ++ d.residualMessageText))) := by
  refine ⟨?_, ?_, ?_, ?_, ?_⟩
  · intro st fields v hv hnn
    have hm : (Payload.dict fields).getMessage = some v := by
      have hred : (Payload.dict fields).getMessage
          = (match lookupField fields "message" with
             | some JVal.null => none
             | some v => some v
             | none => none) := rfl
      rw [hred, hv]
      cases v
      · exact absurd rfl hnn
      · rfl
      · rfl
      · rfl
    simp [request, hm]
  · intro st d hm h5
    simp [request, hm, h5]
  · intro d hm
    simp [request, hm]
  · intro st d hm h2 h3
    have h5 : ¬ (500 ≤ st) := by omega
    have h4 : st ≠ 404 := by omega
    simp [request, hm, h5, h4, h2, h3]
  · intro st d hm h5 h4 h2
    have h5n : ¬ (500 ≤ st) := by omega
    simp [request, hm, h5n, h4, h2]

/-- C2 witness: scenario C (status 200 with a string message raises
InvalidRequest carrying that message) and scenario D (status 503 raises
ServerError carrying 503), concretely. -/
theorem transport_status_precedence_witness :
    request 200 (.dict [("message", .str "unknown skin")])
      = .error (.invalidRequest 200 (.str "unknown skin"))
    ∧ request 503 (.text "oops") = .error (.serverError 503 "") := by
  constructor
  · exact transport_status_precedence.1 200 [("message", .str "unknown skin")]
      (.str "unknown skin") rfl (by simp)
  · exact transport_status_precedence.2.1 503 (.text "oops") rfl (by norm_num)

/-- C9 counterexample: the metadata decoder copies the size and total fields
verbatim and enforces nothing, so a payload with size 2 and total 1 decodes
successfully to a SearchMeta violating the claimed invariant total >= size. -/
theorem search_meta_invariant_counterexample :
    SearchMeta.fromData ⟨some 2, some 1⟩ = .ok ⟨2, 1⟩
    ∧ ¬ ((SearchMeta.mk 2 1).size ≤ (SearchMeta.mk 2 1).total) := by
  exact ⟨rfl, by norm_num⟩

/-- C9 amended: the response decoder copies the payload size and total fields
into SearchMeta verbatim, with no validation; the decoded value satisfies the
claimed invariant (both counts non-negative and total >= size) if and only if
the payload fields already satisfy it. -/
theorem search_meta_decoder_verbatim (d : SearchMetaJson) (s t : ℤ)
    (hs : d.size = some s) (ht : d.total = some t) :
    ∃ m : SearchMeta, SearchMeta.fromData d = .ok m ∧ m.size = s ∧ m.total = t
      ∧ ((0 ≤ m.size ∧ 0 ≤ m.total ∧ m.size ≤ m.total) ↔ (0 ≤ s ∧ 0 ≤ t ∧ s ≤ t)) := by
  refine ⟨⟨s, t⟩, ?_, rfl, rfl, Iff.rfl⟩
  simp [SearchMeta.fromData, req, andThenE, hs, ht]

/-- C9 witness: a conforming payload (size 3, total 7) decodes verbatim and
satisfies the invariant. -/
theorem search_meta_decoder_verbatim_witness :
    ∃ m : SearchMeta, SearchMeta.fromData ⟨some 3, some 7⟩ = .ok m
      ∧ m.size = 3 ∧ m.total = 7
      ∧ ((0 ≤ m.size ∧ 0 ≤ m.total ∧ m.size ≤ m.total) ↔
          ((0 : ℤ) ≤ 3 ∧ (0 : ℤ) ≤ 7 ∧ (3 : ℤ) ≤ 7)) :=
  search_meta_decoder_verbatim ⟨some 3, some 7⟩ 3 7 rfl rfl

/-- C6: the inspect accessor returns the primary inspect field when it is a
non-empty string; otherwise the playside inspect field when that is a
non-empty string; when both are absent (None or empty, the two falsy
Optional-string states) it raises RuntimeError, which is a Python builtin
distinct from the mapping-lookup KeyError a decode failure raises, outside
the library error taxonomy, and an exception rather than an ordinary
returned None. -/
theorem inspect_link_resolution (s : Screenshots) :
    (∀ u, s.rawInspect = some u → u ≠ "" → s.inspect = .ok u)
    ∧ (∀ u, truthyStr s.rawInspect = none → s.inspect_playside = some u → u ≠ "" →
        s.inspect = .ok u)
    ∧ (truthyStr s.rawInspect = none → truthyStr s.inspect_playside = none →
        s.inspect = .error (.runtimeError "invalid data was received from the API"))
    ∧ (∀ e, s.inspect = .error e →
        e = .runtimeError "invalid data was received from the API"
        ∧ e.isLibraryError = false ∧ (∀ k, e ≠ .keyError k)) := by
  refine ⟨?_, ?_, ?_, ?_⟩
  · intro u hu hne
    simp [Screenshots.inspect, truthyStr, hu, hne]
  · intro u hraw hu hne
    simp only [Screenshots.inspect, hraw]
    simp [truthyStr, hu, hne]
  · intro hraw hplay
    simp only [Screenshots.inspect, hraw, hplay]
  · intro e he
    unfold Screenshots.inspect at he
    rcases h1 : truthyStr s.rawInspect with _ | u
    · rcases h2 : truthyStr s.inspect_playside with _ | v
      · rw [h1, h2] at he
        simp at he
        subst he
        exact ⟨rfl, rfl, fun k => by simp⟩
      · rw [h1, h2] at he
        simp at he
    · rw [h1] at he
      simp at he

/-- C6 witness: a CSFloat-style bundle whose primary inspect slot is the
empty string resolves to the playside link through the accessor. -/
theorem inspect_link_resolution_witness :
    (Screenshots.mk (some "") (some "playside-link") none).inspect
      = .ok "playside-link" :=
  (inspect_link_resolution (Screenshots.mk (some "") (some "playside-link") none)).2.1
    "playside-link" rfl rfl (by simp)

/-- C3 counterexample: decoding a sale JSON object that is missing the epoch
field fails with the Python builtin KeyError naming the field, not with any
error of the library taxonomy declared in errors.py: the library declares no
DecodeError class, so the failure the claim attributes to DecodeError is an
uncaught builtin exception. -/
theorem sale_decode_missing_epoch_counterexample :
    Sale.fromData
      { buff_id := some 1, csfloat := some "url", wear := some (1 / 2),
        type := some "normal", pattern := some 5, price := some 100,
        steam_inspect_link := some "link", origin := some "Buff",
        screenshots := some ⟨some (some "ins"), some none, some none⟩ }
      = .error (.keyError "epoch")
    ∧ (PyError.keyError "epoch").isLibraryError = false := by
  exact ⟨rfl, rfl⟩

/-- C3 amended: decoding a sale JSON object whose required fields preceding
epoch are present and well-formed but whose epoch field is missing fails with
the builtin KeyError identifying the missing field; no DecodeError class
exists in the library, so schema nonconformance surfaces as builtin
exceptions (KeyError for a missing field, ValueError for an unknown enum
string) rather than as a library error. -/
theorem sale_decode_missing_epoch (d : SaleJson) (b : ℤ) (c : String) (w : ℚ)
    (p : ℤ) (pr : ℚ)
    (hb : d.buff_id = some b) (hc : d.csfloat = some c) (hw : d.wear = some w)
    (ht : d.type = some "normal") (hp : d.pattern = some p) (hpr : d.price = some pr)
    (he : d.epoch = none) :
    Sale.fromData d = .error (.keyError "epoch")
    ∧ (PyError.keyError "epoch").isLibraryError = false := by
  refine ⟨?_, rfl⟩
  simp [Sale.fromData, req, andThenE, hb, hc, hw, ht, hp, hpr, he, ItemType.fromWire]

/-- C3 witness: a concrete sale object with every field before epoch present
and epoch absent. -/
theorem sale_decode_missing_epoch_witness :
    Sale.fromData
      { buff_id := some 42, csfloat := some "k", wear := some (7 / 10),
        type := some "normal", pattern := some 151, price := some 1234 }
      = .error (.keyError "epoch")
    ∧ (PyError.keyError "epoch").isLibraryError = false :=
  sale_decode_missing_epoch _ 42 "k" (7 / 10) 151 1234 rfl rfl rfl rfl rfl rfl rfl

/-! ### as_chunks lemmas -/


lemma chunksGo_nil (n fuel : ℕ) : chunksGo (α := α) n fuel [] = [] := by
  cases fuel <;> rfl

lemma chunksGo_mem_ne_nil {n : ℕ} :
    ∀ {fuel : ℕ} {xs : List α}, ∀ c ∈ chunksGo n fuel xs, c ≠ [] := by
  intro fuel
  induction fuel with
  | zero =>
    intro xs c hc
    cases xs <;> simp [chunksGo] at hc
  | succ fuel ih =>
    intro xs c hc
    cases xs with
    | nil => simp [chunksGo] at hc
    | cons x xs =>
      simp only [chunksGo] at hc
      rcases List.mem_cons.mp hc with h | h
      · subst h; simp
      · exact ih c h

lemma chunksGo_mem_length_le {n : ℕ} (hn : 1 ≤ n) :
    ∀ {fuel : ℕ} {xs : List α}, ∀ c ∈ chunksGo n fuel xs, c.length ≤ n := by
  intro fuel
  induction fuel with
  | zero =>
    intro xs c hc
    cases xs <;> simp [chunksGo] at hc
  | succ fuel ih =>
    intro xs c hc
    cases xs with
    | nil => simp [chunksGo] at hc
    | cons x xs =>
      simp only [chunksGo] at hc
      rcases List.mem_cons.mp hc with h | h
      · subst h
        simp only [List.length_cons, List.length_take]
        omega
      · exact ih c h

lemma chunksGo_join {n : ℕ} :
    ∀ {fuel : ℕ} {xs : List α}, xs.length ≤ fuel →
      (chunksGo n fuel xs).flatten = xs := by
  intro fuel
  induction fuel with
  | zero =>
    intro xs h
    cases xs with
    | nil => simp [chunksGo]
    | cons x xs => simp at h
  | succ fuel ih =>
    intro xs h
    cases xs with
    | nil => simp [chunksGo]
    | cons x xs =>
      simp only [chunksGo, List.flatten_cons]
      rw [ih]
      · simp [List.take_append_drop]
      · rw [List.length_drop]
        simp only [List.length_cons] at h
        omega

lemma chunksGo_dropLast_length {n : ℕ} (hn : 1 ≤ n) :
    ∀ {fuel : ℕ} {xs : List α}, xs.length ≤ fuel →
      ∀ c ∈ (chunksGo n fuel xs).dropLast, c.length = n := by
  intro fuel
  induction fuel with
  | zero =>
    intro xs h c hc
    cases xs with
    | nil => simp [chunksGo] at hc
    | cons x xs => simp at h
  | succ fuel ih =>
    intro xs h c hc
    cases xs with
    | nil => simp [chunksGo] at hc
    | cons x xs =>
      simp only [chunksGo] at hc
      rcases hrest : xs.drop (n - 1) with _ | ⟨y, ys⟩
      · rw [hrest, chunksGo_nil] at hc
        simp at hc
      · have hlen : (xs.drop (n - 1)).length ≤ fuel := by
          rw [List.length_drop]
          simp only [List.length_cons] at h
          omega
        have htail : chunksGo n fuel (xs.drop (n - 1)) ≠ [] := by
          rw [hrest]
          rw [hrest, List.length_cons] at hlen
          cases fuel with
          | zero => omega
          | succ f => simp [chunksGo]
        rw [List.dropLast_cons_of_ne_nil htail] at hc
        rcases List.mem_cons.mp hc with hcb | hct
        · subst hcb
          have hxs : n - 1 ≤ xs.length := by
            by_contra hlt
            push_neg at hlt
            have hdone : xs.drop (n - 1) = [] :=
              List.drop_eq_nil_of_le (le_of_lt hlt)
            rw [hdone] at hrest
            cases hrest
          simp only [List.length_cons, List.length_take]
          omega
        · exact ih hlen c hct

/-- C10: as_chunks raises ValueError if and only if n < 1; otherwise it
yields a finite sequence of non-empty batches, each of length at most n and
all but possibly the last of length exactly n, whose concatenation in order
equals the input. -/
theorem as_chunks_behavior :
    (∀ (α : Type) (xs : List α) (n : ℤ),
      (∃ msg, as_chunks xs n = .error (.valueError msg)) ↔ n < 1)
    ∧ (∀ (α : Type) (xs : List α) (n : ℤ) (cs : List (List α)),
        1 ≤ n → as_chunks xs n = .ok cs →
        (∀ c ∈ cs, c ≠ [])
        ∧ (∀ c ∈ cs, (c.length : ℤ) ≤ n)
        ∧ (∀ c ∈ cs.dropLast, (c.length : ℤ) = n)
        ∧ cs.flatten = xs) := by
  constructor
  · intro α xs n
    by_cases h : n < 1
    · simp [as_chunks, h]
    · simp [as_chunks, h]
  · intro α xs n cs hn hok
    have hnlt : ¬ n < 1 := by omega
    simp only [as_chunks, hnlt, if_false] at hok
    have hcs : chunksGo n.toNat xs.length xs = cs := by
      injection hok
    subst hcs
    have hn1 : 1 ≤ n.toNat := by omega
    have hcast : ((n.toNat : ℤ)) = n := by omega
    refine ⟨chunksGo_mem_ne_nil, ?_, ?_, chunksGo_join le_rfl⟩
    · intro c hc
      have := chunksGo_mem_length_le hn1 c hc
      omega
    · intro c hc
      have := chunksGo_dropLast_length hn1 le_rfl c hc
      omega

/-- C10 witness: chunking a five-element list with n = 2. -/
theorem as_chunks_behavior_witness :
    as_chunks [1, 2, 3, 4, 5] (2 : ℤ) = .ok [[1, 2], [3, 4], [5]]
    ∧ ([[1, 2], [3, 4], [5]] : List (List ℕ)).flatten = [1, 2, 3, 4, 5]
    ∧ (∀ c ∈ ([[1, 2], [3, 4], [5]] : List (List ℕ)), c ≠ []) := by
  refine ⟨rfl, ?_, ?_⟩
  · exact (as_chunks_behavior.2 ℕ [1, 2, 3, 4, 5] 2 [[1, 2], [3, 4], [5]]
      (by norm_num) rfl).2.2.2
  · exact (as_chunks_behavior.2 ℕ [1, 2, 3, 4, 5] 2 [[1, 2], [3, 4], [5]]
      (by norm_num) rfl).1

/-! ### Parameter-mapping lemmas -/


lemma lookupParam_setParam (ps : List (String × PValue)) (k k2 : String) (v : PValue) :
    lookupParam (setParam ps k v) k2 = if k2 = k then some v else lookupParam ps k2 := by
  induction ps with
  | nil =>
    simp only [setParam, lookupParam]
    by_cases h : k = k2
    · subst h; simp
    · rw [if_neg h, if_neg fun hh => h hh.symm]
  | cons head tail ih =>
    obtain ⟨k0, v0⟩ := head
    by_cases h0 : k0 = k
    · subst h0
      simp only [setParam, if_pos rfl, lookupParam]
      by_cases h2 : k0 = k2
      · subst h2; simp
      · rw [if_neg h2, if_neg fun hh => h2 hh.symm, if_neg h2]
    · simp only [setParam, if_neg h0, lookupParam]
      rw [ih]
      by_cases h2 : k0 = k2
      · subst h2
        rw [if_pos rfl, if_neg h0, if_pos rfl]
      · rw [if_neg h2, if_neg h2]

lemma lookupParam_addIfSome_ne {α : Type} (k2 k : String) (hk : k2 ≠ k)
    (f : α → PValue) (o : Option α) (ps : List (String × PValue)) :
    lookupParam (addIfSome k f o ps) k2 = lookupParam ps k2 := by
  cases o with
  | none => rfl
  | some x => simp only [addIfSome]; rw [lookupParam_setParam, if_neg hk]

lemma lookupParam_addIfSome_self {α : Type} (k : String) (f : α → PValue)
    (o : Option α) (ps : List (String × PValue)) (h0 : lookupParam ps k = none) :
    lookupParam (addIfSome k f o ps) k = Option.map f o := by
  cases o with
  | none => simpa [addIfSome] using h0
  | some x =>
    simp only [addIfSome]
    rw [lookupParam_setParam, if_pos rfl]
    rfl

lemma addValidated_ok_elim {α : Type} {k : String} {f : α → PValue} {valid : α → Bool}
    {msg : String} {o : Option α} {ps ps2 : List (String × PValue)}
    (h : addValidated k f valid msg o ps = .ok ps2) :
    (o = none ∧ ps2 = ps) ∨ (∃ x, o = some x ∧ ps2 = setParam ps k (f x)) := by
  cases o with
  | none =>
    simp only [addValidated] at h
    injection h with h
    exact Or.inl ⟨rfl, h.symm⟩
  | some x =>
    simp only [addValidated] at h
    by_cases hv : valid x = true
    · rw [if_neg (by simp [hv])] at h
      injection h with h
      exact Or.inr ⟨x, rfl, h.symm⟩
    · simp [hv] at h

lemma lookupParam_addValidated_ne {α : Type} {k : String} {f : α → PValue}
    {valid : α → Bool} {msg : String} {o : Option α} {ps ps2 : List (String × PValue)}
    (h : addValidated k f valid msg o ps = .ok ps2) (k2 : String) (hk : k2 ≠ k) :
    lookupParam ps2 k2 = lookupParam ps k2 := by
  rcases addValidated_ok_elim h with ⟨_, rfl⟩ | ⟨x, _, rfl⟩
  · rfl
  · rw [lookupParam_setParam, if_neg hk]

lemma lookupParam_addValidated_self {α : Type} {k : String} {f : α → PValue}
    {valid : α → Bool} {msg : String} {o : Option α} {ps ps2 : List (String × PValue)}
    (h : addValidated k f valid msg o ps = .ok ps2)
    (h0 : lookupParam ps k = none) :
    lookupParam ps2 k = Option.map f o := by
  rcases addValidated_ok_elim h with ⟨ho, rfl⟩ | ⟨x, ho, rfl⟩
  · rw [ho]; exact h0
  · rw [ho, lookupParam_setParam, if_pos rfl]
    rfl

lemma lookupParam_addFlag_ne (k2 k : String) (hk : k2 ≠ k) (b : Bool)
    (ps : List (String × PValue)) :
    lookupParam (addFlag k b ps) k2 = lookupParam ps k2 := by
  cases b with
  | false => rfl
  | true =>
    rw [show addFlag k true ps = setParam ps k (PValue.str "true") from rfl,
      lookupParam_setParam, if_neg hk]

lemma lookupParam_addFlag_self (k : String) (b : Bool)
    (ps : List (String × PValue)) (h0 : lookupParam ps k = none) :
    lookupParam (addFlag k b ps) k = if b then some (.str "true") else none := by
  cases b with
  | false => simpa [addFlag] using h0
  | true =>
    rw [show addFlag k true ps = setParam ps k (PValue.str "true") from rfl,
      lookupParam_setParam, if_pos rfl]
    rfl

/-- The twelve wire keys the filter loop can ever write: min keys built from
the member value, max keys built from the member display form. -/
def filterWireKeys : List String :=
  ["playside_blue_min", "playside_purple_min", "playside_gold_min",
   "backside_blue_min", "backside_purple_min", "backside_gold_min",
   "FilterType.PlaysideBlue_max", "FilterType.PlaysidePurple_max",
   "FilterType.PlaysideGold_max", "FilterType.BacksideBlue_max",
   "FilterType.BacksidePurple_max", "FilterType.BacksideGold_max"]

lemma filterType_min_key_mem (t : FilterType) : (t.value ++ "_min") ∈ filterWireKeys := by
  cases t <;> decide

lemma filterType_max_key_mem (t : FilterType) : (t.pyStr ++ "_max") ∈ filterWireKeys := by
  cases t <;> decide

lemma lookupParam_applyFilters {fs : List Filter} {ps ps2 : List (String × PValue)}
    (h : applyFilters ps fs = .ok ps2) (k : String) (hk : k ∉ filterWireKeys) :
    lookupParam ps2 k = lookupParam ps k := by
  induction fs generalizing ps with
  | nil =>
    simp only [applyFilters] at h
    injection h with h
    rw [h]
  | cons f rest ih =>
    simp only [applyFilters] at h
    by_cases hv : f.is_valid = true
    · rw [if_neg (by simp [hv])] at h
      have hmax : k ≠ f.type.pyStr ++ "_max" := fun hc => hk (by
        rw [hc]; exact filterType_max_key_mem f.type)
      have hmin : k ≠ f.type.value ++ "_min" := fun hc => hk (by
        rw [hc]; exact filterType_min_key_mem f.type)
      rw [ih h, lookupParam_setParam, if_neg hmax, lookupParam_setParam, if_neg hmin]
    · simp [hv] at h

lemma searchParams_ok_elim {a : SearchArgs} {ps : List (String × PValue)}
    (h : searchParams a = .ok ps) :
    ∃ ps1 ps2 ps3,
      addValidated "pattern" (fun p => .int p) (fun p => is_valid_pattern (some p))
        "pattern is invalid." a.pattern
        (addIfSome "type" (fun t => .str t.value) a.type (searchBase a)) = .ok ps1
      ∧ addValidated "wear_min" (fun q => .num q) is_valid_wear
          "float_min is not in range." a.wear_min
          (addIfSome "price_max" (fun q => .num q) a.price_max
            (addIfSome "price_min" (fun q => .num q) a.price_min ps1)) = .ok ps2
      ∧ addValidated "wear_max" (fun q => .num q) is_valid_wear
          "float_max is not in range." a.wear_max ps2 = .ok ps3
      ∧ applyFilters
          (addFlag "pattern_data" a.pattern_data
            (addIfSome "offset" (fun z => .int z) a.offset
              (addIfSome "limit" (fun z => .int z) a.limit
                (addIfSome "date_max" (fun z => .int z) a.date_max
                  (addIfSome "date_min" (fun z => .int z) a.date_min
                    (addIfSome "origin" (fun o => .str o.value) a.origin ps3))))))
          a.filters = .ok ps := by
  unfold searchParams at h
  split at h
  · exact absurd h (by simp)
  · rename_i ps1 h1
    split at h
    · exact absurd h (by simp)
    · rename_i ps2 h2
      split at h
      · exact absurd h (by simp)
      · rename_i ps3 h3
        exact ⟨ps1, ps2, ps3, h1, h2, h3, h⟩

/-- C5 amended: reading the Parameter Builder output back reproduces exactly
the supplied None-defaulted optional parameters and boolean toggle, with the
supplied values (toggle as the string true exactly when enabled), and omits
every unsupplied one; the enum-valued optional parameters currency, sort and
order, however, are always present, carrying their client-side defaults when
unsupplied, as are the required skin and the filter expansions. -/
theorem search_params_round_trip (a : SearchArgs) (ps : List (String × PValue))
    (h : searchParams a = .ok ps) :
    lookupParam ps "type" = Option.map (fun t => PValue.str t.value) a.type
    ∧ lookupParam ps "pattern" = Option.map (fun p => PValue.int p) a.pattern
    ∧ lookupParam ps "price_min" = Option.map (fun q => PValue.num q) a.price_min
    ∧ lookupParam ps "price_max" = Option.map (fun q => PValue.num q) a.price_max
    ∧ lookupParam ps "wear_min" = Option.map (fun q => PValue.num q) a.wear_min
    ∧ lookupParam ps "wear_max" = Option.map (fun q => PValue.num q) a.wear_max
    ∧ lookupParam ps "origin" = Option.map (fun o => PValue.str o.value) a.origin
    ∧ lookupParam ps "date_min" = Option.map (fun z => PValue.int z) a.date_min
    ∧ lookupParam ps "date_max" = Option.map (fun z => PValue.int z) a.date_max
    ∧ lookupParam ps "limit" = Option.map (fun z => PValue.int z) a.limit
    ∧ lookupParam ps "offset" = Option.map (fun z => PValue.int z) a.offset
    ∧ lookupParam ps "pattern_data"
        = (if a.pattern_data then some (PValue.str "true") else none)
    ∧ lookupParam ps "currency" = some (PValue.str a.currency.value)
    ∧ lookupParam ps "sort" = some (PValue.str a.sort.value)
    ∧ lookupParam ps "order" = some (PValue.str a.order.value)
    ∧ lookupParam ps "skin" = some (PValue.str a.skin.value) := by
  obtain ⟨ps1, ps2, ps3, h1, h2, h3, h4⟩ := searchParams_ok_elim h
  have hA : ∀ k, k ∉ filterWireKeys → k ≠ "pattern_data" → k ≠ "offset" →
      k ≠ "limit" → k ≠ "date_max" → k ≠ "date_min" →
      lookupParam ps k
        = lookupParam (addIfSome "origin" (fun o => PValue.str o.value) a.origin ps3) k := by
    intro k hk hk1 hk2 hk3 hk4 hk5
    rw [lookupParam_applyFilters h4 k hk, lookupParam_addFlag_ne k "pattern_data" hk1,
      lookupParam_addIfSome_ne k "offset" hk2, lookupParam_addIfSome_ne k "limit" hk3,
      lookupParam_addIfSome_ne k "date_max" hk4, lookupParam_addIfSome_ne k "date_min" hk5]
  have hC : ∀ k, k ≠ "wear_max" → k ≠ "wear_min" → k ≠ "price_max" → k ≠ "price_min" →
      lookupParam ps3 k = lookupParam ps1 k := by
    intro k hk1 hk2 hk3 hk4
    rw [lookupParam_addValidated_ne h3 k hk1, lookupParam_addValidated_ne h2 k hk2,
      lookupParam_addIfSome_ne k "price_max" hk3, lookupParam_addIfSome_ne k "price_min" hk4]
  have hD : ∀ k, k ≠ "pattern" → k ≠ "type" →
      lookupParam ps1 k = lookupParam (searchBase a) k := by
    intro k hk1 hk2
    rw [lookupParam_addValidated_ne h1 k hk1, lookupParam_addIfSome_ne k "type" hk2]
  refine ⟨?_, ?_, ?_, ?_, ?_, ?_, ?_, ?_, ?_, ?_, ?_, ?_, ?_, ?_, ?_, ?_⟩
  · rw [hA "type" (by decide) (by decide) (by decide) (by decide) (by decide) (by decide),
      lookupParam_addIfSome_ne "type" "origin" (by decide),
      hC "type" (by decide) (by decide) (by decide) (by decide),
      lookupParam_addValidated_ne h1 "type" (by decide)]
    exact lookupParam_addIfSome_self "type" _ _ _ rfl
  · rw [hA "pattern" (by decide) (by decide) (by decide) (by decide) (by decide) (by decide),
      lookupParam_addIfSome_ne "pattern" "origin" (by decide),
      hC "pattern" (by decide) (by decide) (by decide) (by decide)]
    exact lookupParam_addValidated_self h1 (by
      rw [lookupParam_addIfSome_ne "pattern" "type" (by decide)]
      rfl)
  · rw [hA "price_min" (by decide) (by decide) (by decide) (by decide) (by decide) (by decide),
      lookupParam_addIfSome_ne "price_min" "origin" (by decide),
      lookupParam_addValidated_ne h3 "price_min" (by decide),
      lookupParam_addValidated_ne h2 "price_min" (by decide),
      lookupParam_addIfSome_ne "price_min" "price_max" (by decide)]
    exact lookupParam_addIfSome_self "price_min" _ _ _ (by
      rw [hD "price_min" (by decide) (by decide)]
      rfl)
  · rw [hA "price_max" (by decide) (by decide) (by decide) (by decide) (by decide) (by decide),
      lookupParam_addIfSome_ne "price_max" "origin" (by decide),
      lookupParam_addValidated_ne h3 "price_max" (by decide),
      lookupParam_addValidated_ne h2 "price_max" (by decide)]
    exact lookupParam_addIfSome_self "price_max" _ _ _ (by
      rw [lookupParam_addIfSome_ne "price_max" "price_min" (by decide),
        hD "price_max" (by decide) (by decide)]
      rfl)
  · rw [hA "wear_min" (by decide) (by decide) (by decide) (by decide) (by decide) (by decide),
      lookupParam_addIfSome_ne "wear_min" "origin" (by decide),
      lookupParam_addValidated_ne h3 "wear_min" (by decide)]
    exact lookupParam_addValidated_self h2 (by
      rw [lookupParam_addIfSome_ne "wear_min" "price_max" (by decide),
        lookupParam_addIfSome_ne "wear_min" "price_min" (by decide),
        hD "wear_min" (by decide) (by decide)]
      rfl)
  · rw [hA "wear_max" (by decide) (by decide) (by decide) (by decide) (by decide) (by decide),
      lookupParam_addIfSome_ne "wear_max" "origin" (by decide)]
    exact lookupParam_addValidated_self h3 (by
      rw [lookupParam_addValidated_ne h2 "wear_max" (by decide),
        lookupParam_addIfSome_ne "wear_max" "price_max" (by decide),
        lookupParam_addIfSome_ne "wear_max" "price_min" (by decide),
        hD "wear_max" (by decide) (by decide)]
      rfl)
  · rw [hA "origin" (by decide) (by decide) (by decide) (by decide) (by decide) (by decide)]
    exact lookupParam_addIfSome_self "origin" _ _ _ (by
      rw [hC "origin" (by decide) (by decide) (by decide) (by decide),
        hD "origin" (by decide) (by decide)]
      rfl)
  · rw [lookupParam_applyFilters h4 "date_min" (by decide),
      lookupParam_addFlag_ne "date_min" "pattern_data" (by decide),
      lookupParam_addIfSome_ne "date_min" "offset" (by decide),
      lookupParam_addIfSome_ne "date_min" "limit" (by decide),
      lookupParam_addIfSome_ne "date_min" "date_max" (by decide)]
    exact lookupParam_addIfSome_self "date_min" _ _ _ (by
      rw [lookupParam_addIfSome_ne "date_min" "origin" (by decide),
        hC "date_min" (by decide) (by decide) (by decide) (by decide),
        hD "date_min" (by decide) (by decide)]
      rfl)
  · rw [lookupParam_applyFilters h4 "date_max" (by decide),
      lookupParam_addFlag_ne "date_max" "pattern_data" (by decide),
      lookupParam_addIfSome_ne "date_max" "offset" (by decide),
      lookupParam_addIfSome_ne "date_max" "limit" (by decide)]
    exact lookupParam_addIfSome_self "date_max" _ _ _ (by
      rw [lookupParam_addIfSome_ne "date_max" "date_min" (by decide),
        lookupParam_addIfSome_ne "date_max" "origin" (by decide),
        hC "date_max" (by decide) (by decide) (by decide) (by decide),
        hD "date_max" (by decide) (by decide)]
      rfl)
  · rw [lookupParam_applyFilters h4 "limit" (by decide),
      lookupParam_addFlag_ne "limit" "pattern_data" (by decide),
      lookupParam_addIfSome_ne "limit" "offset" (by decide)]
    exact lookupParam_addIfSome_self "limit" _ _ _ (by
      rw [lookupParam_addIfSome_ne "limit" "date_max" (by decide),
        lookupParam_addIfSome_ne "limit" "date_min" (by decide),
        lookupParam_addIfSome_ne "limit" "origin" (by decide),
        hC "limit" (by decide) (by decide) (by decide) (by decide),
        hD "limit" (by decide) (by decide)]
      rfl)
  · rw [lookupParam_applyFilters h4 "offset" (by decide),
      lookupParam_addFlag_ne "offset" "pattern_data" (by decide)]
    exact lookupParam_addIfSome_self "offset" _ _ _ (by
      rw [lookupParam_addIfSome_ne "offset" "limit" (by decide),
        lookupParam_addIfSome_ne "offset" "date_max" (by decide),
        lookupParam_addIfSome_ne "offset" "date_min" (by decide),
        lookupParam_addIfSome_ne "offset" "origin" (by decide),
        hC "offset" (by decide) (by decide) (by decide) (by decide),
        hD "offset" (by decide) (by decide)]
      rfl)
  · rw [lookupParam_applyFilters h4 "pattern_data" (by decide)]
    exact lookupParam_addFlag_self "pattern_data" _ _ (by
      rw [lookupParam_addIfSome_ne "pattern_data" "offset" (by decide),
        lookupParam_addIfSome_ne "pattern_data" "limit" (by decide),
        lookupParam_addIfSome_ne "pattern_data" "date_max" (by decide),
        lookupParam_addIfSome_ne "pattern_data" "date_min" (by decide),
        lookupParam_addIfSome_ne "pattern_data" "origin" (by decide),
        hC "pattern_data" (by decide) (by decide) (by decide) (by decide),
        hD "pattern_data" (by decide) (by decide)]
      rfl)
  · rw [hA "currency" (by decide) (by decide) (by decide) (by decide) (by decide) (by decide),
      lookupParam_addIfSome_ne "currency" "origin" (by decide),
      hC "currency" (by decide) (by decide) (by decide) (by decide),
      hD "currency" (by decide) (by decide)]
    rfl
  · rw [hA "sort" (by decide) (by decide) (by decide) (by decide) (by decide) (by decide),
      lookupParam_addIfSome_ne "sort" "origin" (by decide),
      hC "sort" (by decide) (by decide) (by decide) (by decide),
      hD "sort" (by decide) (by decide)]
    rfl
  · rw [hA "order" (by decide) (by decide) (by decide) (by decide) (by decide) (by decide),
      lookupParam_addIfSome_ne "order" "origin" (by decide),
      hC "order" (by decide) (by decide) (by decide) (by decide),
      hD "order" (by decide) (by decide)]
    rfl
  · rw [hA "skin" (by decide) (by decide) (by decide) (by decide) (by decide) (by decide),
      lookupParam_addIfSome_ne "skin" "origin" (by decide),
      hC "skin" (by decide) (by decide) (by decide) (by decide),
      hD "skin" (by decide) (by decide)]
    rfl

/-- C5 witness: a search with pattern 5 and the pattern_data toggle enabled,
everything else unsupplied; reading the built mapping back gives the supplied
pattern, omits price_min, shows the toggle as the string true and carries the
default currency. -/
theorem search_params_round_trip_witness :
    lookupParam [("skin", PValue.str "Karambit"), ("currency", PValue.str "USD"),
      ("sort", PValue.str "date"), ("order", PValue.str "DESC"),
      ("pattern", PValue.int 5), ("pattern_data", PValue.str "true")] "pattern"
      = some (PValue.int 5)
    ∧ lookupParam [("skin", PValue.str "Karambit"), ("currency", PValue.str "USD"),
        ("sort", PValue.str "date"), ("order", PValue.str "DESC"),
        ("pattern", PValue.int 5), ("pattern_data", PValue.str "true")] "price_min"
        = none
    ∧ lookupParam [("skin", PValue.str "Karambit"), ("currency", PValue.str "USD"),
        ("sort", PValue.str "date"), ("order", PValue.str "DESC"),
        ("pattern", PValue.int 5), ("pattern_data", PValue.str "true")] "pattern_data"
        = some (PValue.str "true")
    ∧ lookupParam [("skin", PValue.str "Karambit"), ("currency", PValue.str "USD"),
        ("sort", PValue.str "date"), ("order", PValue.str "DESC"),
        ("pattern", PValue.int 5), ("pattern_data", PValue.str "true")] "currency"
        = some (PValue.str "USD") := by
  have h := search_params_round_trip
    { skin := Item.Karambit, pattern := some 5, pattern_data := true }
    [("skin", PValue.str "Karambit"), ("currency", PValue.str "USD"),
     ("sort", PValue.str "date"), ("order", PValue.str "DESC"),
     ("pattern", PValue.int 5), ("pattern_data", PValue.str "true")] rfl
  exact ⟨h.2.1, h.2.2.1, h.2.2.2.2.2.2.2.2.2.2.2.1, h.2.2.2.2.2.2.2.2.2.2.2.2.1⟩

/-- C5 counterexample: a search with no optional parameter supplied still
produces a mapping carrying currency, sort and order, the client-side
defaults USD, date and DESC — the repository documents all three arguments
as optional, so unsupplied optional parameters do appear in the mapping and
client-side defaults are injected for them, contradicting the claim. -/
theorem search_defaults_injected_counterexample :
    searchParams { skin := Item.Karambit }
      = .ok [("skin", PValue.str "Karambit"), ("currency", PValue.str "USD"),
             ("sort", PValue.str "date"), ("order", PValue.str "DESC")]
    ∧ lookupParam [("skin", PValue.str "Karambit"), ("currency", PValue.str "USD"),
        ("sort", PValue.str "date"), ("order", PValue.str "DESC")] "currency"
        = some (PValue.str "USD")
    ∧ lookupParam [("skin", PValue.str "Karambit"), ("currency", PValue.str "USD"),
        ("sort", PValue.str "date"), ("order", PValue.str "DESC")] "sort"
        = some (PValue.str "date")
    ∧ lookupParam [("skin", PValue.str "Karambit"), ("currency", PValue.str "USD"),
        ("sort", PValue.str "date"), ("order", PValue.str "DESC")] "order"
        = some (PValue.str "DESC") := by
  exact ⟨rfl, rfl, rfl, rfl⟩

end CSBlueGem
